import Mathlib

/-!
Verification of the heart-disease risk-assessment service.

Shallow embedding of the repository's code:
* `src/api/app.py`  — `HierarchicalClassifier` (two-stage prediction),
  `apply_defaults`, and the feature engineering in `preprocess_input`;
* `notebooks/phase1_improvements.py` — `create_medical_features`;
* `notebooks/ordinal_classification.py` — `calculate_ordinal_class_weights`,
  the hand-tuned `aggressive_weights` table, and the ordinal confusion-matrix
  diagnostics.

Floats are embedded as rationals; the two pickled sub-models of the
hierarchical classifier are opaque, so they are embedded as per-record
functions (sklearn `predict` / `predict_proba` act row-wise).
-/

namespace HeartDisease

/-- `np.round`: round to the nearest integer, ties to the even integer. -/
def npRound (q : ℚ) : ℤ :=
  let f : ℤ := ⌊q⌋
  let frac : ℚ := q - f
  if frac < 1/2 then f
  else if 1/2 < frac then f + 1
  else if f % 2 = 0 then f else f + 1

/-- `np.clip(np.round(raw), 0, 2).astype(int)` from
`HierarchicalClassifier.predict` (app.py line 58).  `np.nan_to_num` is the
identity on the rational embedding, which has no NaN. -/
def ordinalClip (q : ℚ) : ℕ := (min 2 (max 0 (npRound q))).toNat

/-- The two pickled sub-models of `HierarchicalClassifier` (app.py lines
34–43), embedded as per-record functions over an abstract record type `α`:
* `binaryPredict` / `binaryProba` — the binary stage's `predict` and
  `predict_proba` (columns `[P(no disease), P(disease)]`);
* `isOrdinal` — `'Ordinal' in str(type(multiclass_model))`;
* `multiHasProba` — `hasattr(self.multiclass_model, 'predict_proba')`;
* `multiNumClasses` — `multi_proba.shape[1]`;
* `multiProba` — the severity stage's `predict_proba` row (classes 0,1,2),
  meaningful when `multiNumClasses = 3`;
* `multiPredictRaw` — the severity stage's `predict` raw continuous output
  (ordinal-regression formulation);
* `multiPredictClass` — the severity stage's `predict` (plain classifier). -/
structure HierarchicalClassifier (α : Type) where
  binaryPredict : α → ℕ
  binaryProba : α → ℚ × ℚ
  isOrdinal : Bool
  multiHasProba : Bool
  multiNumClasses : ℕ
  multiProba : α → ℚ × ℚ × ℚ
  multiPredictRaw : α → ℚ
  multiPredictClass : α → ℕ

namespace HierarchicalClassifier

variable {α : Type}

/-- One row of `HierarchicalClassifier.predict` (app.py lines 45–65):
records whose binary prediction is not 1 keep the initial 0; disease-masked
records get the severity stage's prediction, round-then-clipped to [0,2] for
ordinal models. -/
def predictOne (M : HierarchicalClassifier α) (x : α) : ℕ :=
  if M.binaryPredict x = 1 then
    if M.isOrdinal then ordinalClip (M.multiPredictRaw x)
    else M.multiPredictClass x
  else 0

/-- `disease_mask.sum()`: how many records of the batch the binary stage
predicts as disease. -/
def diseaseCount (M : HierarchicalClassifier α) (X : List α) : ℕ :=
  (X.filter (fun x => M.binaryPredict x == 1)).length

/-- `HierarchicalClassifier.predict` on a batch.  When `diseaseCount = 0`
the guard at line 54 skips the severity stage and the output stays the
all-zero initialisation; per record this coincides with `predictOne`. -/
def predict (M : HierarchicalClassifier α) (X : List α) : List ℕ :=
  X.map M.predictOne

/-- Whether the severity-stage sub-model is invoked by `predict`: it is
called exactly under the guard `if disease_mask.sum() > 0` (app.py line 54). -/
def severityInvokedPredict (M : HierarchicalClassifier α) (X : List α) : Bool :=
  decide (0 < M.diseaseCount X)

/-- One row of `HierarchicalClassifier.predict_proba` (app.py lines 67–115).
Row `i` starts as `[binary_proba[i,0], 0, 0]`; when the severity stage has
`predict_proba` with 3 classes, classes 1,2 get the disease mass split by the
renormalised severity probabilities (with the `severity_sum == 0 → 1` guard);
with an unexpected shape the disease mass is split equally; without
`predict_proba` the entry at index `predictions[i]` is overwritten (one-hot
fallback), and an index ≥ 3 would raise (`none`). -/
def predictProbaOne (M : HierarchicalClassifier α) (x : α) : Option (ℚ × ℚ × ℚ) :=
  let b := M.binaryProba x
  if M.multiHasProba then
    if M.multiNumClasses = 3 then
      let m := M.multiProba x
      let s := m.2.1 + m.2.2
      let s' := if s = 0 then 1 else s
      some (b.1, b.2 * (m.2.1 / s'), b.2 * (m.2.2 / s'))
    else
      some (b.1, b.2 * (1/2), b.2 * (1/2))
  else
    match M.predictOne x with
    | 0 => some (b.1, 0, 0)
    | 1 => some (b.1, b.2, 0)
    | 2 => some (b.1, 0, b.2)
    | _ => none

/-- `HierarchicalClassifier.predict_proba` on a batch (row-wise, propagating
the fallback branch's index error). -/
def predictProba (M : HierarchicalClassifier α) : List α → Option (List (ℚ × ℚ × ℚ))
  | [] => some []
  | x :: xs =>
    match M.predictProbaOne x, M.predictProba xs with
    | some r, some rs => some (r :: rs)
    | _, _ => none

/-- Whether the severity-stage sub-model is invoked by `predict_proba`:
when it has `predict_proba`, app.py line 89 calls it on the whole batch
unconditionally; otherwise the fallback at line 111 calls `self.predict`,
which invokes it exactly when the disease count is positive. -/
def severityInvokedProba (M : HierarchicalClassifier α) (X : List α) : Bool :=
  if M.multiHasProba then true else M.severityInvokedPredict X

/-- Sum of one probability row. -/
def rowSum (r : ℚ × ℚ × ℚ) : ℚ := r.1 + r.2.1 + r.2.2

end HierarchicalClassifier

/-! ## Feature engineering

`create_medical_features` (phase1_improvements.py lines 76–161) runs on the
training dataframes; the feature-engineering block of `preprocess_input`
(app.py lines 276–307) runs on the single-record inference dataframe.  Both
operate on numeric (label-encoded) columns, embedded here as one record of
rationals. -/

/-- A numeric patient record as both feature functions see it: all columns
already label-encoded to numbers. -/
structure FeatureRow where
  age : ℚ
  trestbps : ℚ
  chol : ℚ
  thalch : ℚ
  oldpeak : ℚ
  exang : ℚ
  slope : ℚ
  ca : ℚ
  thal : ℚ
  cp : ℚ

/-- `(condition).astype(int)` on one record. -/
def indicator (p : Prop) [Decidable p] : ℚ := if p then 1 else 0

/-- Training risk score `medical_risk_score` (phase1_improvements.py lines
84–116): `2·[age>55] + [trestbps>140] + [chol>240] + 2·exang +
3·[oldpeak>2]`. -/
def medical_risk_score (r : FeatureRow) : ℚ :=
  2 * indicator (r.age > 55) + indicator (r.trestbps > 140) +
    indicator (r.chol > 240) + 2 * r.exang + 3 * indicator (r.oldpeak > 2)

/-- Training feature `age_thalch_ratio = age / (thalch + 1)`
(phase1_improvements.py line 121). -/
def age_thalch_frac (r : FeatureRow) : ℚ := r.age / (r.thalch + 1)

/-- Training feature `hr_reserve_pct = (predicted_max_hr - thalch) /
predicted_max_hr` with `predicted_max_hr = 220 - age`
(phase1_improvements.py lines 126–127). -/
def hr_reserve_pct (r : FeatureRow) : ℚ :=
  (220 - r.age - r.thalch) / (220 - r.age)

/-- Training feature `bp_chol_risk = [trestbps>140] + [chol>240]`
(phase1_improvements.py lines 132–135). -/
def bp_chol_risk (r : FeatureRow) : ℚ :=
  indicator (r.trestbps > 140) + indicator (r.chol > 240)

/-- Training feature `cp_severity = cp` (phase1_improvements.py line 145). -/
def cp_severity (r : FeatureRow) : ℚ := r.cp

/-- Training feature `ca_thal_product` (phase1_improvements.py line 150). -/
def ca_thal_product (r : FeatureRow) : ℚ := r.ca * r.thal

/-- Training feature `oldpeak_slope_product` (phase1_improvements.py
line 155). -/
def oldpeak_slope_product (r : FeatureRow) : ℚ := r.oldpeak * r.slope

/-- Derived column names added by `create_medical_features`. -/
def trainingDerivedNames : List String :=
  ["medical_risk_score", "age_thalch_ratio", "hr_reserve_pct",
   "bp_chol_risk", "cp_severity", "ca_thal_product", "oldpeak_slope_product"]

/-- Inference feature `age_group`: `pd.cut(age, [0,40,50,60,70,100],
labels=[0..4]).fillna(2)` (app.py lines 278–282); `pd.cut` bins are
left-open, right-closed, NaN outside the bins. -/
def age_group (r : FeatureRow) : ℚ :=
  if 0 < r.age ∧ r.age ≤ 40 then 0
  else if 40 < r.age ∧ r.age ≤ 50 then 1
  else if 50 < r.age ∧ r.age ≤ 60 then 2
  else if 60 < r.age ∧ r.age ≤ 70 then 3
  else if 70 < r.age ∧ r.age ≤ 100 then 4
  else 2

/-- Inference feature `bp_category`: `pd.cut(trestbps, [0,120,140,160,300],
labels=[0..3]).fillna(1)` (app.py lines 285–289). -/
def bp_category (r : FeatureRow) : ℚ :=
  if 0 < r.trestbps ∧ r.trestbps ≤ 120 then 0
  else if 120 < r.trestbps ∧ r.trestbps ≤ 140 then 1
  else if 140 < r.trestbps ∧ r.trestbps ≤ 160 then 2
  else if 160 < r.trestbps ∧ r.trestbps ≤ 300 then 3
  else 1

/-- Inference feature `chol_category`: `pd.cut(chol, [0,200,240,600],
labels=[0..2]).fillna(1)` (app.py lines 292–296). -/
def chol_category (r : FeatureRow) : ℚ :=
  if 0 < r.chol ∧ r.chol ≤ 200 then 0
  else if 200 < r.chol ∧ r.chol ≤ 240 then 1
  else if 240 < r.chol ∧ r.chol ≤ 600 then 2
  else 1

/-- Inference feature `hr_reserve = thalch - (220 - age)` (app.py
line 299). -/
def hr_reserve (r : FeatureRow) : ℚ := r.thalch - (220 - r.age)

/-- Inference feature `cv_risk_score = age/100 + trestbps/200 + chol/300 +
oldpeak/10` (app.py lines 302–307). -/
def cv_risk_score (r : FeatureRow) : ℚ :=
  r.age / 100 + r.trestbps / 200 + r.chol / 300 + r.oldpeak / 10

/-- Derived column names added by `preprocess_input`. -/
def inferenceDerivedNames : List String :=
  ["age_group", "bp_category", "chol_category", "hr_reserve", "cv_risk_score"]

/-! ## Defaults for missing optional fields (`apply_defaults`, app.py
lines 207–243).  Only the numeric optional fields matter to the feature
engineering; the categorical defaults (`fbs`, `restecg`, `slope`, `thal`)
are constant strings and are carried along unchanged. -/

/-- A raw request body: required `age` may in principle be absent
(`apply_defaults` then falls back to `data.get('age', 50)`), and each
optional numeric field is present or missing. -/
structure RawInput where
  age : Option ℚ
  trestbps : Option ℚ
  chol : Option ℚ
  thalch : Option ℚ
  oldpeak : Option ℚ
  ca : Option ℚ

/-- The numeric fields after `apply_defaults`:  `age` is not an optional
field and is passed through untouched. -/
structure FilledInput where
  age : Option ℚ
  trestbps : ℚ
  chol : ℚ
  thalch : ℚ
  oldpeak : ℚ
  ca : ℚ

/-- `apply_defaults` (app.py lines 207–243): `trestbps → 130.0`,
`chol → 200.0`, `oldpeak → 0.0`, `ca → 0.0`, and a missing `thalch` is
filled with `float(220 - data.get('age', 50))`. -/
def apply_defaults (d : RawInput) : FilledInput where
  age := d.age
  trestbps := d.trestbps.getD 130
  chol := d.chol.getD 200
  thalch :=
    match d.thalch with
    | some t => t
    | none => 220 - d.age.getD 50
  oldpeak := d.oldpeak.getD 0
  ca := d.ca.getD 0

/-! ## Class-imbalance weighting (ordinal_classification.py) -/

/-- `Counter(y)[c]`: how many samples of class `c` the label list holds. -/
def classCount (ys : List ℕ) (c : ℕ) : ℕ := ys.count c

/-- `n_classes = len(class_counts)`: the number of distinct classes present. -/
def numClassesPresent (ys : List ℕ) : ℕ := ys.dedup.length

/-- The base inverse-frequency weight `total / (n_classes * count)`
(ordinal_classification.py lines 132–134). -/
def baseWeight (ys : List ℕ) (c : ℕ) : ℚ :=
  (ys.length : ℚ) / ((numClassesPresent ys : ℚ) * (classCount ys c : ℚ))

/-- The ordinal severity multiplier hard-coded at
ordinal_classification.py line 137 (`1 + cls * 0.2`). -/
def ordinalBeta : ℚ := 1/5

/-- `calculate_ordinal_class_weights(y, alpha)` (ordinal_classification.py
lines 116–144), as the weight of class `c`.  The `alpha` argument appears in
the signature (default 2.0) but is never read by the function body. -/
def calculate_ordinal_class_weights (_alpha : ℚ) (ys : List ℕ) (c : ℕ) : ℚ :=
  baseWeight ys c * (1 + (c : ℚ) * ordinalBeta)

/-- The hand-tuned per-class multiplier table `aggressive_weights`
(ordinal_classification.py lines 277–283). -/
def aggressive_weights : List (ℕ × ℚ) :=
  [(0, 1), (1, 9/5), (2, 7/2), (3, 4), (4, 8)]

/-- `np.array([table[int(y)] for y in y_train])` (ordinal_classification.py
lines 290–291): per-sample weights from a hand-tuned table; a label absent
from the table raises `KeyError` (`none`). -/
def buildSampleWeights (table : List (ℕ × ℚ)) : List ℕ → Option (List ℚ)
  | [] => some []
  | y :: ys =>
    match table.lookup y, buildSampleWeights table ys with
    | some w, some ws => some (w :: ws)
    | _, _ => none

/-! ## Ordinal evaluation (ordinal_classification.py lines 66–114).

`plot_ordinal_confusion_matrix` hard-codes five severity levels
(`range(5)` on the diagonal, `range(4)` for the near-diagonal band), so the
confusion-matrix diagnostics are embedded over labels 0–4. -/

/-- `accuracy_score(y_true, y_pred)`: fraction of exact matches. -/
def accuracy (ts ps : List ℕ) : ℚ :=
  (((ts.zip ps).filter (fun tp => tp.1 == tp.2)).length : ℚ) / (ts.length : ℚ)

/-- `mean_absolute_error(y_true, y_pred)`. -/
def meanAbsError (ts ps : List ℕ) : ℚ :=
  (((ts.zip ps).map (fun tp => |(tp.1 : ℚ) - (tp.2 : ℚ)|)).sum) / (ts.length : ℚ)

/-- Entry `cm[i, j]` of `confusion_matrix(y_true, y_pred)`. -/
def confusionEntry (ts ps : List ℕ) (i j : ℕ) : ℕ :=
  ((ts.zip ps).filter (fun tp => tp.1 == i && tp.2 == j)).length

/-- `cm.sum()` over the 5×5 matrix. -/
def cmTotal (ts ps : List ℕ) : ℕ :=
  ((List.range 5).map (fun i =>
    ((List.range 5).map (fun j => confusionEntry ts ps i j)).sum)).sum

/-- `np.diag(cm).sum()`: exactly-diagonal predictions. -/
def diagSum (ts ps : List ℕ) : ℕ :=
  ((List.range 5).map (fun i => confusionEntry ts ps i i)).sum

/-- `sum(cm[i, i+1] + cm[i+1, i] for i in range(4))`: off-by-exactly-one
predictions. -/
def nearDiagonal (ts ps : List ℕ) : ℕ :=
  ((List.range 4).map (fun i =>
    confusionEntry ts ps i (i + 1) + confusionEntry ts ps (i + 1) i)).sum

/-- `cm.sum() - np.diag(cm).sum() - near_diagonal`: off-by-two-or-more
predictions. -/
def farMistakes (ts ps : List ℕ) : ℕ :=
  cmTotal ts ps - diagSum ts ps - nearDiagonal ts ps

/-- Diagonal fraction printed by `plot_ordinal_confusion_matrix`. -/
def diagFrac (ts ps : List ℕ) : ℚ := (diagSum ts ps : ℚ) / (cmTotal ts ps : ℚ)

/-- Off-by-one fraction printed by `plot_ordinal_confusion_matrix`. -/
def nearFrac (ts ps : List ℕ) : ℚ :=
  (nearDiagonal ts ps : ℚ) / (cmTotal ts ps : ℚ)

/-- Off-by-two-or-more fraction printed by `plot_ordinal_confusion_matrix`. -/
def farFrac (ts ps : List ℕ) : ℚ := (farMistakes ts ps : ℚ) / (cmTotal ts ps : ℚ)

/-! ## Concrete instances used to settle the claims -/

/-- A hierarchical classifier whose severity stage lacks `predict_proba`
(`hasattr` fails, one-hot fallback) and whose binary stage predicts
no-disease with probability 3/5 for every record. -/
def C1Mfb : HierarchicalClassifier Unit where
  binaryPredict := fun _ => 0
  binaryProba := fun _ => (3/5, 2/5)
  isOrdinal := false
  multiHasProba := false
  multiNumClasses := 0
  multiProba := fun _ => (0, 0, 0)
  multiPredictRaw := fun _ => 0
  multiPredictClass := fun _ => 0

/-- The spec's concrete scenario: binary stage gives P(disease) = 0.8 and
the severity stage splits the severity classes 3/10 vs 7/10. -/
def C2Mex : HierarchicalClassifier Unit where
  binaryPredict := fun _ => 1
  binaryProba := fun _ => (1/5, 4/5)
  isOrdinal := false
  multiHasProba := true
  multiNumClasses := 3
  multiProba := fun _ => (0, 3/10, 7/10)
  multiPredictRaw := fun _ => 0
  multiPredictClass := fun _ => 1

/-- A hierarchical classifier whose severity stage has `predict_proba` and
whose binary stage predicts no-disease for every record. -/
def C3Mhp : HierarchicalClassifier Unit where
  binaryPredict := fun _ => 0
  binaryProba := fun _ => (9/10, 1/10)
  isOrdinal := false
  multiHasProba := true
  multiNumClasses := 3
  multiProba := fun _ => (1/2, 1/4, 1/4)
  multiPredictRaw := fun _ => 0
  multiPredictClass := fun _ => 1

/-- An ordinal severity stage emitting the out-of-range continuous score
7/2 for a disease-predicted record. -/
def C4Mord : HierarchicalClassifier Unit where
  binaryPredict := fun _ => 1
  binaryProba := fun _ => (1/2, 1/2)
  isOrdinal := true
  multiHasProba := false
  multiNumClasses := 0
  multiProba := fun _ => (0, 0, 0)
  multiPredictRaw := fun _ => 7/2
  multiPredictClass := fun _ => 0

/-- A concrete numeric record: age 60, trestbps 130, chol 200, thalch 150,
oldpeak 0, exang 0, slope 1, ca 0, thal 1, cp 2. -/
def C5r0 : FeatureRow :=
  { age := 60, trestbps := 130, chol := 200, thalch := 150, oldpeak := 0,
    exang := 0, slope := 1, ca := 0, thal := 1, cp := 2 }

/-- A concrete numeric record with age 60 and measured max heart rate 100. -/
def C6r1 : FeatureRow :=
  { age := 60, trestbps := 130, chol := 200, thalch := 100, oldpeak := 0,
    exang := 0, slope := 1, ca := 0, thal := 1, cp := 2 }

/-- A hand-tuned table holding the non-positive multiplier −1 for class 0. -/
def C8negTable : List (ℕ × ℚ) := [(0, -1), (1, 2)]

/-- A request that omits `thalch` but carries age 60. -/
def C10d0 : RawInput :=
  { age := some 60, trestbps := some 130, chol := some 200, thalch := none,
    oldpeak := some 0, ca := some 0 }

/-- The feature row built from `C10d0` after `apply_defaults`
(`thalch = 220 − 60 = 160`). -/
def C10r : FeatureRow :=
  { age := 60, trestbps := 130, chol := 200, thalch := 160, oldpeak := 0,
    exang := 0, slope := 1, ca := 0, thal := 1, cp := 2 }

/-! ## Helper lemmas -/

/-- `npRound` lands within 1/2 of its argument: it is a nearest integer. -/
lemma npRound_dist (q : ℚ) : |(npRound q : ℚ) - q| ≤ 1/2 := by
  have h0 : (⌊q⌋ : ℚ) ≤ q := Int.floor_le q
  have h1 : q < ⌊q⌋ + 1 := Int.lt_floor_add_one q
  simp only [npRound]
  split_ifs with ha hb hc
  · rw [abs_le]; constructor <;> linarith
  · push_cast; rw [abs_le]; constructor <;> linarith
  · rw [abs_le]; constructor <;> linarith
  · push_cast; rw [abs_le]; constructor <;> linarith

/-- The defensive clamp keeps every ordinal prediction at most 2. -/
lemma ordinalClip_le_two (q : ℚ) : ordinalClip q ≤ 2 := by
  simp only [ordinalClip]
  omega

/-- When the rounded score is already a valid label, the clamp does not
change it. -/
lemma ordinalClip_eq_of_range (q : ℚ) (h0 : 0 ≤ npRound q) (h2 : npRound q ≤ 2) :
    (ordinalClip q : ℤ) = npRound q := by
  simp only [ordinalClip]
  omega

/-! ## Claims -/

/-- C5: the claim says training-time feature augmentation
(`create_medical_features`) and inference-time feature engineering
(`preprocess_input`) are the exact same function, with the risk score being
the weighted indicator sum in both paths.  On the record `C5r0` the training
path derives `medical_risk_score = 2` while the inference path instead
derives `cv_risk_score = 23/12` from a different formula, and the two
derived-column name sets are disjoint: the code has drifted. -/
theorem C5_feature_drift :
    medical_risk_score C5r0 = 2 ∧
    cv_risk_score C5r0 = 23/12 ∧
    medical_risk_score C5r0 ≠ cv_risk_score C5r0 ∧
    trainingDerivedNames.all (fun n => !(inferenceDerivedNames.contains n)) = true := by
  refine ⟨?_, ?_, ?_, ?_⟩
  · simp only [medical_risk_score, indicator, C5r0]
    norm_num
  · simp only [cv_risk_score, C5r0]
    norm_num
  · simp only [medical_risk_score, cv_risk_score, indicator, C5r0]
    norm_num
  · rfl

/-- C6 counterexample: the claim says the derived heart-rate-reserve feature
equals `(220 − age) − thalch`.  On `C6r1` (age 60, thalch 100) that value is
60, but the inference feature `hr_reserve` is −60 and the training feature
`hr_reserve_pct` is 3/8. -/
theorem C6_hr_reserve_counterexample :
    hr_reserve C6r1 = -60 ∧
    hr_reserve_pct C6r1 = 3/8 ∧
    hr_reserve C6r1 ≠ (220 - C6r1.age) - C6r1.thalch ∧
    hr_reserve_pct C6r1 ≠ (220 - C6r1.age) - C6r1.thalch := by
  refine ⟨?_, ?_, ?_, ?_⟩
  · simp only [hr_reserve, C6r1]; norm_num
  · simp only [hr_reserve_pct, C6r1]; norm_num
  · simp only [hr_reserve, C6r1]; norm_num
  · simp only [hr_reserve_pct, C6r1]; norm_num

/-- C6 amended: the inference feature `hr_reserve` equals the negation of
`(220 − age) − thalch`, and the training feature `hr_reserve_pct` equals
`(220 − age) − thalch` divided by the predicted maximum `220 − age`. -/
theorem C6_hr_reserve_amended (r : FeatureRow) :
    hr_reserve r = -((220 - r.age) - r.thalch) ∧
    (220 - r.age ≠ 0 → hr_reserve_pct r * (220 - r.age) = (220 - r.age) - r.thalch) := by
  constructor
  · simp only [hr_reserve]; ring
  · intro h
    simp only [hr_reserve_pct]
    field_simp

/-- C6 amended, instantiated at `C6r1`. -/
theorem C6_hr_reserve_amended_witness :
    hr_reserve C6r1 = -((220 - C6r1.age) - C6r1.thalch) ∧
    hr_reserve_pct C6r1 * (220 - C6r1.age) = (220 - C6r1.age) - C6r1.thalch :=
  ⟨(C6_hr_reserve_amended C6r1).1,
   (C6_hr_reserve_amended C6r1).2 (by simp only [C6r1]; norm_num)⟩

/-- C9: on true labels [0,1,2,3,4] and predictions [0,1,2,3,2] the ordinal
evaluation yields accuracy 0.8, mean absolute error 0.4, exact-diagonal
fraction 0.8, off-by-exactly-one fraction 0, and off-by-two-or-more
fraction 0.2. -/
theorem C9_ordinal_metrics_example :
    accuracy [0,1,2,3,4] [0,1,2,3,2] = 4/5 ∧
    meanAbsError [0,1,2,3,4] [0,1,2,3,2] = 2/5 ∧
    diagFrac [0,1,2,3,4] [0,1,2,3,2] = 4/5 ∧
    nearFrac [0,1,2,3,4] [0,1,2,3,2] = 0 ∧
    farFrac [0,1,2,3,4] [0,1,2,3,2] = 1/5 := by
  have hacc : (([0,1,2,3,4].zip [0,1,2,3,2]).filter
      (fun tp => tp.1 == tp.2)).length = 4 := by decide
  have hlen : ([0,1,2,3,4] : List ℕ).length = 5 := by decide
  have hdiag : diagSum [0,1,2,3,4] [0,1,2,3,2] = 4 := by decide
  have hnear : nearDiagonal [0,1,2,3,4] [0,1,2,3,2] = 0 := by decide
  have hfar : farMistakes [0,1,2,3,4] [0,1,2,3,2] = 1 := by decide
  have htot : cmTotal [0,1,2,3,4] [0,1,2,3,2] = 5 := by decide
  refine ⟨?_, ?_, ?_, ?_, ?_⟩
  · rw [accuracy, hacc, hlen]; norm_num
  · simp only [meanAbsError, List.zip, List.zipWith, List.map, List.sum_cons,
      List.sum_nil, List.length_cons, List.length_nil]
    norm_num
  · rw [diagFrac, hdiag, htot]; norm_num
  · rw [nearFrac, hnear]; norm_num
  · rw [farFrac, hfar, htot]; norm_num

/-- C10: a request that omits `thalch` but carries an age `a` gets
`thalch = 220 − a` from `apply_defaults`, and the derived `hr_reserve`
feature of the defaulted record is exactly 0. -/
theorem C10_thalch_default (d : RawInput) (a : ℚ) (r : FeatureRow)
    (h1 : d.thalch = none) (h2 : d.age = some a)
    (h3 : r.thalch = (apply_defaults d).thalch) (h4 : r.age = a) :
    (apply_defaults d).thalch = 220 - a ∧ hr_reserve r = 0 := by
  have ht : (apply_defaults d).thalch = 220 - a := by
    simp only [apply_defaults, h1, h2, Option.getD_some]
  refine ⟨ht, ?_⟩
  rw [hr_reserve, h3, ht, h4]
  ring

/-- C10, instantiated at the request `C10d0` (age 60, no `thalch`). -/
theorem C10_thalch_default_witness :
    (apply_defaults C10d0).thalch = 220 - 60 ∧ hr_reserve C10r = 0 :=
  C10_thalch_default C10d0 60 C10r rfl rfl
    (by simp only [C10r, apply_defaults, C10d0, Option.getD_some]; norm_num) rfl

/-- C7: for every class `c` present in the labels, the ordinal-exponent
strategy yields `N/(K·count(c)) · (1 + c·β)` with `β = 1/5 > 0`; the weight
is strictly positive, and strictly increasing in the class index whenever
all present classes have equal counts. -/
theorem C7_ordinal_weights (alpha : ℚ) (ys : List ℕ) (c : ℕ) (hc : c ∈ ys) :
    calculate_ordinal_class_weights alpha ys c
        = (ys.length : ℚ) / ((numClassesPresent ys : ℚ) * (classCount ys c : ℚ))
          * (1 + (c : ℚ) * (1/5)) ∧
    (0 : ℚ) < 1/5 ∧
    0 < calculate_ordinal_class_weights alpha ys c ∧
    ∀ d ∈ ys, c < d → (∀ e ∈ ys, classCount ys e = classCount ys c) →
      calculate_ordinal_class_weights alpha ys c
        < calculate_ordinal_class_weights alpha ys d := by
  have hN : (0 : ℚ) < ys.length := by
    exact_mod_cast List.length_pos.mpr (List.ne_nil_of_mem hc)
  have hK : (0 : ℚ) < numClassesPresent ys := by
    have h := List.mem_dedup.mpr hc
    exact_mod_cast List.length_pos.mpr (List.ne_nil_of_mem h)
  have hbase : ∀ e ∈ ys, 0 < baseWeight ys e := by
    intro e he
    have hcnt : (0 : ℚ) < classCount ys e := by
      exact_mod_cast List.count_pos_iff.mpr he
    exact div_pos hN (mul_pos hK hcnt)
  have hpos : ∀ e ∈ ys, 0 < calculate_ordinal_class_weights alpha ys e := by
    intro e he
    have h1 : (0 : ℚ) < 1 + (e : ℚ) * (1/5) := by
      have h2 : (0 : ℚ) ≤ (e : ℚ) := Nat.cast_nonneg e
      linarith
    exact mul_pos (hbase e he) h1
  refine ⟨rfl, by norm_num, hpos c hc, ?_⟩
  intro d hd hcd heq
  have hb : baseWeight ys d = baseWeight ys c := by
    simp only [baseWeight, heq d hd]
  simp only [calculate_ordinal_class_weights, hb, ordinalBeta]
  have hcd' : (c : ℚ) < (d : ℚ) := by exact_mod_cast hcd
  have hfac : 1 + (c : ℚ) * (1/5) < 1 + (d : ℚ) * (1/5) := by linarith
  exact mul_lt_mul_of_pos_left hfac (hbase c hc)

/-- C7, instantiated on the balanced label list [0,1,0,1]: class 0's weight
is positive and strictly below class 1's. -/
theorem C7_ordinal_weights_witness :
    0 < calculate_ordinal_class_weights 2 [0,1,0,1] 0 ∧
    calculate_ordinal_class_weights 2 [0,1,0,1] 0
      < calculate_ordinal_class_weights 2 [0,1,0,1] 1 := by
  have h := C7_ordinal_weights 2 [0,1,0,1] 0 (by decide)
  exact ⟨h.2.2.1, h.2.2.2 1 (by decide) (by decide) (by decide)⟩

/-- C8 counterexample: the claim says non-positive β or table values raise a
configuration error.  The hand-tuned table `C8negTable` carries the
non-positive multiplier −1 for class 0, yet the sample-weight build succeeds
(`some`), and the ordinal strategy accepts any `alpha` because the body never
reads it — no configuration error exists anywhere on these paths. -/
theorem C8_no_validation_counterexample :
    buildSampleWeights C8negTable [0, 1] = some [-1, 2] ∧
    (-1 : ℚ) ≤ 0 ∧
    calculate_ordinal_class_weights (-3) [0, 1] 0
      = calculate_ordinal_class_weights 2 [0, 1] 0 :=
  ⟨rfl, by norm_num, rfl⟩

/-- C8 amended: building sample weights from a hand-tuned table raises (a
`KeyError`, modelled as `none`) exactly when some label present in the data
is missing from the table; non-positive table values pass silently, and the
ordinal strategy's `alpha` argument is ignored entirely. -/
theorem C8_keyerror_amended (table : List (ℕ × ℚ)) (ys : List ℕ) :
    (buildSampleWeights table ys = none ↔ ∃ y ∈ ys, table.lookup y = none) ∧
    ∀ (a b : ℚ) (zs : List ℕ) (c : ℕ),
      calculate_ordinal_class_weights a zs c = calculate_ordinal_class_weights b zs c := by
  refine ⟨?_, fun a b zs c => rfl⟩
  induction ys with
  | nil => simp [buildSampleWeights]
  | cons y ys ih =>
    simp only [buildSampleWeights]
    cases h1 : table.lookup y with
    | none =>
      simp only [h1]
      constructor
      · intro _; exact ⟨y, List.mem_cons_self y ys, h1⟩
      · intro _; trivial
    | some w =>
      cases h2 : buildSampleWeights table ys with
      | none =>
        obtain ⟨z, hz, hzl⟩ := ih.mp h2
        simp only [h1, h2]
        constructor
        · intro _; exact ⟨z, List.mem_cons_of_mem _ hz, hzl⟩
        · intro _; trivial
      | some ws =>
        simp only [h1, h2]
        constructor
        · intro h; exact absurd h (by simp)
        · rintro ⟨z, hz, hzl⟩
          rcases List.mem_cons.mp hz with rfl | hz'
          · rw [h1] at hzl; exact absurd hzl (by simp)
          · have h3 := ih.mpr ⟨z, hz', hzl⟩
            rw [h2] at h3
            exact absurd h3 (by simp)

/-- C8 amended, instantiated: labels reaching class 5 with the repository's
`aggressive_weights` table (which stops at class 4) raise the error. -/
theorem C8_keyerror_amended_witness :
    buildSampleWeights aggressive_weights [0, 1, 2, 3, 4, 5] = none :=
  (C8_keyerror_amended aggressive_weights [0, 1, 2, 3, 4, 5]).1.mpr
    ⟨5, by decide, rfl⟩

namespace HierarchicalClassifier

/-- C1 counterexample: the claim says every `predict_proba` row sums to 1,
including in the one-hot fallback branch on an all-no-disease batch.  For
`C1Mfb` (no severity `predict_proba`, binary stage predicting no-disease with
probability 3/5) the single row comes out as (3/5, 0, 0), summing to 3/5. -/
theorem C1_row_sum_counterexample :
    C1Mfb.multiHasProba = false ∧
    C1Mfb.binaryPredict () = 0 ∧
    C1Mfb.predictProba [()] = some [(3/5, 0, 0)] ∧
    rowSum (3/5, 0, 0) ≠ 1 := by
  refine ⟨rfl, rfl, rfl, ?_⟩
  rw [rowSum]
  norm_num

/-- C1 amended: when the binary row sums to 1, a `predict_proba` row sums
to 1 whenever the severity stage has `predict_proba` (and, with 3 classes,
nonzero severity-class mass); in the one-hot fallback branch a row sums to 1
only when the hierarchical prediction is positive — a row predicted
no-disease sums to the binary no-disease probability instead. -/
theorem C1_row_sums_amended {α : Type} (M : HierarchicalClassifier α) (x : α)
    (hb : (M.binaryProba x).1 + (M.binaryProba x).2 = 1) :
    (M.multiHasProba = true →
      (M.multiNumClasses = 3 → (M.multiProba x).2.1 + (M.multiProba x).2.2 ≠ 0) →
      ∀ r, M.predictProbaOne x = some r → rowSum r = 1) ∧
    (M.multiHasProba = false → ∀ r, M.predictProbaOne x = some r →
      (M.predictOne x ≠ 0 → rowSum r = 1) ∧
      (M.predictOne x = 0 → rowSum r = (M.binaryProba x).1)) := by
  constructor
  · intro hp hs r hr
    simp only [predictProbaOne, hp, if_true] at hr
    by_cases h3 : M.multiNumClasses = 3
    · rw [if_pos h3] at hr
      have hs' := hs h3
      rw [if_neg hs'] at hr
      cases hr
      rw [rowSum]
      have h1 : (M.multiProba x).2.1 / ((M.multiProba x).2.1 + (M.multiProba x).2.2)
          + (M.multiProba x).2.2 / ((M.multiProba x).2.1 + (M.multiProba x).2.2) = 1 := by
        rw [div_add_div_same]
        exact div_self hs'
      calc (M.binaryProba x).1
            + (M.binaryProba x).2
              * ((M.multiProba x).2.1 / ((M.multiProba x).2.1 + (M.multiProba x).2.2))
            + (M.binaryProba x).2
              * ((M.multiProba x).2.2 / ((M.multiProba x).2.1 + (M.multiProba x).2.2))
          = (M.binaryProba x).1 + (M.binaryProba x).2
            * ((M.multiProba x).2.1 / ((M.multiProba x).2.1 + (M.multiProba x).2.2)
               + (M.multiProba x).2.2
                 / ((M.multiProba x).2.1 + (M.multiProba x).2.2)) := by ring
        _ = 1 := by rw [h1, mul_one]; exact hb
    · rw [if_neg h3] at hr
      cases hr
      rw [rowSum]
      have h2 : (M.binaryProba x).1 + (M.binaryProba x).2 * (1/2)
          + (M.binaryProba x).2 * (1/2)
          = (M.binaryProba x).1 + (M.binaryProba x).2 := by ring
      rw [h2]
      exact hb
  · intro hp r hr
    simp only [predictProbaOne, hp, Bool.false_eq_true, if_false] at hr
    constructor
    · intro hne
      cases h : M.predictOne x with
      | zero => exact absurd h hne
      | succ n =>
        cases n with
        | zero =>
          rw [h] at hr
          cases hr
          rw [rowSum]
          simpa using hb
        | succ m =>
          cases m with
          | zero =>
            rw [h] at hr
            cases hr
            rw [rowSum]
            have h2 : (M.binaryProba x).1 + 0 + (M.binaryProba x).2
                = (M.binaryProba x).1 + (M.binaryProba x).2 := by ring
            rw [h2]
            exact hb
          | succ k =>
            rw [h] at hr
            exact Option.noConfusion hr
    · intro h0
      rw [h0] at hr
      cases hr
      rw [rowSum]
      ring

/-- C1 amended, instantiated at `C1Mfb`: its fallback row predicted
no-disease sums to the binary no-disease probability 3/5. -/
theorem C1_row_sums_amended_witness :
    (C1Mfb.binaryProba ()).1 + (C1Mfb.binaryProba ()).2 = 1 ∧
    C1Mfb.predictOne () = 0 ∧
    rowSum (3/5, 0, 0) = (C1Mfb.binaryProba ()).1 := by
  have hb : (C1Mfb.binaryProba ()).1 + (C1Mfb.binaryProba ()).2 = 1 := by
    simp only [C1Mfb]
    norm_num
  exact ⟨hb, rfl, ((C1_row_sums_amended C1Mfb () hb).2 rfl (3/5, 0, 0) rfl).2 rfl⟩

/-- C2: `predict_proba` composes the stages as P(class 0) = binary
no-disease mass, and P(class s) = binary disease mass times the severity
probability of s renormalised over severity classes 1 and 2 only. -/
theorem C2_composition_rule {α : Type} (M : HierarchicalClassifier α) (x : α)
    (hp : M.multiHasProba = true) (h3 : M.multiNumClasses = 3)
    (hs : (M.multiProba x).2.1 + (M.multiProba x).2.2 ≠ 0) :
    M.predictProbaOne x = some ((M.binaryProba x).1,
      (M.binaryProba x).2
        * ((M.multiProba x).2.1 / ((M.multiProba x).2.1 + (M.multiProba x).2.2)),
      (M.binaryProba x).2
        * ((M.multiProba x).2.2 / ((M.multiProba x).2.1 + (M.multiProba x).2.2))) := by
  simp only [predictProbaOne, hp, if_true, if_pos h3, if_neg hs]

/-- C2, on the spec's concrete scenario: binary P(disease) = 0.8 and
severity split 0.3/0.7 yield the row [0.2, 0.24, 0.56]. -/
theorem C2_composition_rule_witness :
    C2Mex.predictProba [()] = some [(1/5, 6/25, 14/25)] := by
  have h := C2_composition_rule C2Mex () rfl rfl (by simp only [C2Mex]; norm_num)
  simp only [predictProba, h]
  simp only [C2Mex]
  norm_num

/-- C3 counterexample: the claim says an all-no-disease batch invokes the
severity stage in neither `predict` nor `predict_proba`.  For `C3Mhp`
(severity stage has `predict_proba`) a batch whose every record is predicted
no-disease still invokes the severity stage inside `predict_proba`, which
calls it on the whole batch unconditionally. -/
theorem C3_severity_invoked_counterexample :
    C3Mhp.binaryPredict () = 0 ∧
    C3Mhp.diseaseCount [()] = 0 ∧
    C3Mhp.severityInvokedPredict [()] = false ∧
    C3Mhp.severityInvokedProba [()] = true :=
  ⟨rfl, rfl, rfl, rfl⟩

/-- C3 amended: an all-no-disease batch skips the severity stage in
`predict` (output all zeros) and, when the severity stage lacks
`predict_proba`, also in `predict_proba`; but when the severity stage has
`predict_proba` it is invoked on every batch.  Class-0 mass always comes
from the binary stage alone. -/
theorem C3_severity_invocation_amended {α : Type} (M : HierarchicalClassifier α)
    (X : List α) :
    (M.diseaseCount X = 0 →
      M.severityInvokedPredict X = false ∧ M.predict X = X.map fun _ => 0) ∧
    (M.multiHasProba = false → M.diseaseCount X = 0 →
      M.severityInvokedProba X = false) ∧
    (M.multiHasProba = true → M.severityInvokedProba X = true) ∧
    ∀ x ∈ X, ∀ r, M.predictProbaOne x = some r → r.1 = (M.binaryProba x).1 := by
  have hmask : M.diseaseCount X = 0 → ∀ x ∈ X, ¬(M.binaryPredict x = 1) := by
    intro h0 x hx h1
    have h2 := List.filter_eq_nil_iff.mp (List.length_eq_zero.mp h0) x hx
    simp [h1] at h2
  refine ⟨?_, ?_, ?_, ?_⟩
  · intro h0
    constructor
    · rw [severityInvokedPredict, h0]
      rfl
    · rw [predict]
      apply List.map_congr_left
      intro x hx
      rw [predictOne, if_neg (hmask h0 x hx)]
  · intro hp h0
    rw [severityInvokedProba, hp]
    simp only [Bool.false_eq_true, if_false]
    rw [severityInvokedPredict, h0]
    rfl
  · intro hp
    rw [severityInvokedProba, hp]
    rfl
  · intro x hx r hr
    simp only [predictProbaOne] at hr
    split at hr
    · split at hr
      · cases hr; rfl
      · cases hr; rfl
    · split at hr
      · cases hr; rfl
      · cases hr; rfl
      · cases hr; rfl
      · exact Option.noConfusion hr

/-- C3 amended, instantiated at `C3Mhp` and the all-no-disease batch
`[()]`. -/
theorem C3_severity_invocation_amended_witness :
    C3Mhp.severityInvokedPredict [()] = false ∧
    C3Mhp.predict [()] = [0] ∧
    C3Mhp.severityInvokedProba [()] = true := by
  have h := C3_severity_invocation_amended C3Mhp [()]
  refine ⟨(h.1 rfl).1, ?_, h.2.2.1 rfl⟩
  simpa using (h.1 rfl).2

/-- C4: every hierarchical prediction is a label in {0, 1, 2}: no-disease
records pass through as 0; under an ordinal severity model the raw score is
rounded to a nearest integer (`npRound` is within 1/2) and then clipped into
the valid range (the clamp is the identity on in-range values).  The only
assumption is that a non-ordinal severity classifier predicts its own labels
{0, 1, 2}. -/
theorem C4_predict_label_range {α : Type} (M : HierarchicalClassifier α) (x : α)
    (hmc : M.isOrdinal = false → M.multiPredictClass x ≤ 2) :
    M.predictOne x ≤ 2 ∧
    (M.binaryPredict x ≠ 1 → M.predictOne x = 0) ∧
    (M.binaryPredict x = 1 → M.isOrdinal = true →
      M.predictOne x = ordinalClip (M.multiPredictRaw x)) ∧
    (∀ q : ℚ, |(npRound q : ℚ) - q| ≤ 1/2) ∧
    (∀ q : ℚ, ordinalClip q ≤ 2) ∧
    (∀ q : ℚ, 0 ≤ npRound q → npRound q ≤ 2 → (ordinalClip q : ℤ) = npRound q) := by
  refine ⟨?_, ?_, ?_, npRound_dist, ordinalClip_le_two, ordinalClip_eq_of_range⟩
  · rw [predictOne]
    split_ifs with h1 h2
    · exact ordinalClip_le_two _
    · exact hmc (Bool.eq_false_iff.mpr h2)
    · omega
  · intro hb
    rw [predictOne, if_neg hb]
  · intro hb ho
    rw [predictOne, if_pos hb, if_pos ho]

/-- C4, instantiated at the ordinal classifier `C4Mord` whose raw severity
score is 7/2: the prediction is the clamp of the rounded score, namely 2. -/
theorem C4_predict_label_range_witness :
    C4Mord.predictOne () ≤ 2 ∧
    C4Mord.predictOne () = ordinalClip (7/2) ∧
    ordinalClip (7/2) = 2 := by
  have h := C4_predict_label_range C4Mord () (fun hfalse => Bool.noConfusion hfalse)
  refine ⟨h.1, h.2.2.1 rfl rfl, ?_⟩
  rw [ordinalClip]
  have hr : npRound (7/2) = 4 := by
    rw [npRound]
    have hf : (⌊(7/2 : ℚ)⌋ : ℤ) = 3 := by
      rw [Int.floor_eq_iff]; norm_num
    rw [hf]
    norm_num
  rw [hr]
  rfl

end HierarchicalClassifier

end HeartDisease
